import Mathlib

/-!
Verification development for the Regent support email automation worker
(an email ingestion and classification pipeline).  The Python sources under
`src/` are shallowly embedded below: strings are `List Char`/`String`,
JSON values are the `Jv` inductive, machine floats are modelled as exact
rationals (`Rat`), exceptions are `Except PyErr`, and each external service
(MS Graph, Gemini, the Presidio analyzer/anonymizer pair, the D1 store) is
an explicit oracle carried in an environment record.  Side effects of the
per-message orchestrator are recorded as an explicit `Eff` trace.
-/

/-! ## Python string semantics helpers -/

/-- Whitespace recognised by Python's `str.strip()` and by the regex class
`\s` in unicode mode (the common members; both sets agree on these). -/
def pyIsSpace (c : Char) : Bool :=
  c = ' ' || c = '\t' || c = '\n' || c = '\r' || c = '\x0b' || c = '\x0c' ||
  (0x1c ≤ c.toNat && c.toNat ≤ 0x1f) || c.toNat = 0x85 || c.toNat = 0xa0 ||
  c.toNat = 0x1680 || (0x2000 ≤ c.toNat && c.toNat ≤ 0x200a) ||
  c.toNat = 0x2028 || c.toNat = 0x2029 || c.toNat = 0x202f ||
  c.toNat = 0x205f || c.toNat = 0x3000

/-- Strip characters satisfying `p` from both ends (Python `str.strip()`). -/
def stripEnds (p : Char → Bool) (l : List Char) : List Char :=
  ((l.dropWhile p).reverse.dropWhile p).reverse

/-- Python `str.strip()` on a `String`. -/
def pyStrip (s : String) : String := String.mk (stripEnds pyIsSpace s.data)

/-- Python `sub in s` substring containment. -/
def containsSub (needle : List Char) : List Char → Bool
  | [] => needle.isPrefixOf []
  | c :: rest => needle.isPrefixOf (c :: rest) || containsSub needle rest

/-- Python `s.split(sep)` for a one-character separator. -/
def splitChar (sep : Char) : List Char → List (List Char)
  | [] => [[]]
  | c :: rest =>
    if c = sep then [] :: splitChar sep rest
    else
      match splitChar sep rest with
      | h :: t => (c :: h) :: t
      | [] => [[c]]

/-- Python slice `s[a:b]` on character lists (clamping semantics). -/
def pySlice (l : List Char) (a b : Nat) : List Char := (l.take b).drop a

/-- Python `s[:n]` on a `String`. -/
def pyTake (s : String) (n : Nat) : String := String.mk (s.data.take n)

/-- Python `str.lower()` (ASCII-faithful). -/
def pyLower (l : List Char) : List Char := l.map Char.toLower

/-- Python `str.title()` after the fact: the first cased character of each
alphabetic run is upper-cased, the rest lower-cased. -/
def pyTitleAux : Bool → List Char → List Char
  | _, [] => []
  | prevAlpha, c :: rest =>
    if c.isAlpha then
      (if prevAlpha then c.toLower else c.toUpper) :: pyTitleAux true rest
    else
      c :: pyTitleAux false rest

/-- Python `str.title()`. -/
def pyTitle (s : String) : String := String.mk (pyTitleAux false s.data)

/-- Python `s.replace('-', ' ')` style single-character replacement. -/
def replaceChar (a b : Char) (s : String) : String :=
  String.mk (s.data.map (fun c => if c = a then b else c))

/-! ## Exact decimal numbers standing in for Python floats

The numbers this pipeline manipulates are short decimal literals
(confidences such as `0.8`, the constants `0.3`/`0.5`, and integer token
counts).  On these, IEEE doubles behave exactly like the decimals
themselves for every operation the code performs (halving is exact in
binary floating point, and comparisons of distinct short decimals are
never flipped by rounding), so floats are modelled as exact decimals
`m / 10^e`, kept normalized (no trailing zeroes in `m`, and zero is
`(0, 0)`). -/

structure Dnum where
  m : Int
  e : Nat
deriving DecidableEq, Repr

/-- `10 ^ e` on `Nat` by plain structural recursion. -/
def tenPow : Nat → Nat
  | 0 => 1
  | n + 1 => 10 * tenPow n

/-- Normalize a mantissa/exponent pair. -/
def Dnum.normAux : Int → Nat → Dnum
  | m, 0 => ⟨m, 0⟩
  | m, e + 1 =>
    if m = 0 then ⟨0, 0⟩
    else if m % 10 = 0 then Dnum.normAux (m / 10) e
    else ⟨m, e + 1⟩

/-- The decimal `m / 10^e`, normalized. -/
def dec (m : Int) (e : Nat) : Dnum := Dnum.normAux m e

/-- Comparison of decimals (agrees with float comparison on this
pipeline's values). -/
def Dnum.le (a b : Dnum) : Bool := a.m * (tenPow b.e : Int) ≤ b.m * (tenPow a.e : Int)

/-- Python `max` on two floats. -/
def dmax (a b : Dnum) : Dnum := if Dnum.le a b then b else a

/-- Multiplication by `0.5` (exact). -/
def dhalf (d : Dnum) : Dnum := dec (d.m * 5) (d.e + 1)

/-! ## A small JSON value type mirroring what `json.loads` produces -/

/-- JSON values as produced by `json.loads`: `null`/`bool`/number/`str`/
`list`/`dict`.  Numbers are exact decimals (see `Dnum`). -/
inductive Jv where
  | null
  | bool (b : Bool)
  | num (d : Dnum)
  | str (s : String)
  | arr (elems : List Jv)
  | obj (fields : List (String × Jv))

mutual

def jvDecEq : (a b : Jv) → Decidable (a = b)
  | .null, .null => isTrue rfl
  | .null, .bool _ => isFalse nofun
  | .null, .num _ => isFalse nofun
  | .null, .str _ => isFalse nofun
  | .null, .arr _ => isFalse nofun
  | .null, .obj _ => isFalse nofun
  | .bool _, .null => isFalse nofun
  | .bool a, .bool b => decidable_of_iff (a = b) (by simp)
  | .bool _, .num _ => isFalse nofun
  | .bool _, .str _ => isFalse nofun
  | .bool _, .arr _ => isFalse nofun
  | .bool _, .obj _ => isFalse nofun
  | .num _, .null => isFalse nofun
  | .num _, .bool _ => isFalse nofun
  | .num a, .num b => decidable_of_iff (a = b) (by simp)
  | .num _, .str _ => isFalse nofun
  | .num _, .arr _ => isFalse nofun
  | .num _, .obj _ => isFalse nofun
  | .str _, .null => isFalse nofun
  | .str _, .bool _ => isFalse nofun
  | .str _, .num _ => isFalse nofun
  | .str a, .str b => decidable_of_iff (a = b) (by simp)
  | .str _, .arr _ => isFalse nofun
  | .str _, .obj _ => isFalse nofun
  | .arr _, .null => isFalse nofun
  | .arr _, .bool _ => isFalse nofun
  | .arr _, .num _ => isFalse nofun
  | .arr _, .str _ => isFalse nofun
  | .arr a, .arr b =>
    match jvListDecEq a b with
    | isTrue h => isTrue (by rw [h])
    | isFalse h => isFalse (by simp_all)
  | .arr _, .obj _ => isFalse nofun
  | .obj _, .null => isFalse nofun
  | .obj _, .bool _ => isFalse nofun
  | .obj _, .num _ => isFalse nofun
  | .obj _, .str _ => isFalse nofun
  | .obj _, .arr _ => isFalse nofun
  | .obj a, .obj b =>
    match jvFieldsDecEq a b with
    | isTrue h => isTrue (by rw [h])
    | isFalse h => isFalse (by simp_all)

def jvListDecEq : (a b : List Jv) → Decidable (a = b)
  | [], [] => isTrue rfl
  | [], _ :: _ => isFalse nofun
  | _ :: _, [] => isFalse nofun
  | x :: xs, y :: ys =>
    match jvDecEq x y with
    | isTrue h1 =>
      (match jvListDecEq xs ys with
       | isTrue h2 => isTrue (by rw [h1, h2])
       | isFalse h2 => isFalse (by simp_all))
    | isFalse h1 => isFalse (by simp_all)

def jvFieldsDecEq : (a b : List (String × Jv)) → Decidable (a = b)
  | [], [] => isTrue rfl
  | [], _ :: _ => isFalse nofun
  | _ :: _, [] => isFalse nofun
  | (k1, v1) :: xs, (k2, v2) :: ys =>
    if hk : k1 = k2 then
      match jvDecEq v1 v2 with
      | isTrue h1 =>
        (match jvFieldsDecEq xs ys with
         | isTrue h2 => isTrue (by rw [hk, h1, h2])
         | isFalse h2 => isFalse (by simp_all))
      | isFalse h1 => isFalse (by simp_all)
    else isFalse (by simp_all)

end

instance : DecidableEq Jv := jvDecEq

/-- Lookup of a key in a JSON object, keeping the last binding
(`json.loads` keeps the last occurrence of a duplicated key). -/
def lookupLast (fields : List (String × Jv)) (k : String) : Option Jv :=
  (fields.reverse.find? (fun p => p.1 == k)).map (fun p => p.2)

/-- Python truthiness of a JSON value. -/
def pyTruthy : Jv → Bool
  | .null => false
  | .bool b => b
  | .num d => d.m ≠ 0
  | .str s => s ≠ ""
  | .arr l => !l.isEmpty
  | .obj f => !f.isEmpty

/-- Python `==` between a JSON value and a `str` (cross-type compares are
`False`). -/
def jvEqStr (v : Jv) (s : String) : Bool :=
  match v with
  | .str t => t == s
  | _ => false

/-- Python exception classes raised or caught by the embedded code. -/
inductive PyErr where
  | jsonDecode
  | keyErr
  | indexErr
  | typeErr
  | valueErr (msg : String)
  | attributeErr
  | exceptionErr (msg : String)
deriving DecidableEq

/-- Display text of an exception (approximates CPython's `str(e)`; only the
`valueErr` payloads are relied on by any theorem). -/
def errStr : PyErr → String
  | .jsonDecode => "Expecting value"
  | .keyErr => "KeyError"
  | .indexErr => "list index out of range"
  | .typeErr => "TypeError"
  | .valueErr m => m
  | .attributeErr => "AttributeError"
  | .exceptionErr m => m

/-- `dict.get(k, d)` — raises `AttributeError` on non-dict receivers. -/
def jGetE (v : Jv) (k : String) (d : Jv) : Except PyErr Jv :=
  match v with
  | .obj fs => .ok ((lookupLast fs k).getD d)
  | _ => .error .attributeErr

/-- Total `dict.get(k, d)` for receivers already known to be objects. -/
def objGetD (v : Jv) (k : String) (d : Jv) : Jv :=
  match v with
  | .obj fs => (lookupLast fs k).getD d
  | _ => d

/-- Python `x[0]` (list indexing; also strings; other receivers raise). -/
def pyIndex0 : Jv → Except PyErr Jv
  | .arr (x :: _) => .ok x
  | .arr [] => .error .indexErr
  | .str s =>
    match s.data with
    | c :: _ => .ok (.str (String.mk [c]))
    | [] => .error .indexErr
  | .obj _ => .error .keyErr
  | _ => .error .typeErr

/-- Display form used when a JSON value is interpolated into an f-string
(`str(x)`); exact only for strings, which is all any theorem relies on. -/
def jvDisplay : Jv → String
  | .str s => s
  | .null => "None"
  | .bool true => "True"
  | .bool false => "False"
  | .num d => if d.e = 0 then toString d.m else toString d.m ++ "e-" ++ toString d.e
  | .arr _ => "[...]"
  | .obj _ => "\x7b...\x7d"

/-! ## `json.loads`: a recursive-descent JSON reader

Escapes inside strings and exponent notation are not produced by any input
this development evaluates; the reader rejects them, which makes every
rejection land in the same `JSONDecodeError` handling path the code has. -/

def jsonWs (c : Char) : Bool := c = ' ' || c = '\t' || c = '\n' || c = '\r'

def skipWs (l : List Char) : List Char := l.dropWhile jsonWs

def parseStrBody : List Char → Option (List Char × List Char)
  | [] => none
  | c :: rest =>
    if c = '"' then some ([], rest)
    else if c = '\\' then none
    else (parseStrBody rest).map (fun p => (c :: p.1, p.2))

def digitsToNat (l : List Char) : Nat :=
  l.foldl (fun acc c => acc * 10 + (c.toNat - 48)) 0

def mkNum (sign : Bool) (intDs fracDs : List Char) : Dnum :=
  let n : Int := (digitsToNat (intDs ++ fracDs) : Int)
  dec (if sign then -n else n) fracDs.length

def parseNum (l : List Char) : Option (Jv × List Char) :=
  let (sign, l1) :=
    match l with
    | '-' :: r => (true, r)
    | _ => (false, l)
  let ds := l1.takeWhile Char.isDigit
  if ds.isEmpty then none
  else
    let l2 := l1.drop ds.length
    match l2 with
    | '.' :: r =>
      let fs := r.takeWhile Char.isDigit
      if fs.isEmpty then none
      else
        let l3 := r.drop fs.length
        match l3 with
        | 'e' :: _ => none
        | 'E' :: _ => none
        | _ => some (.num (mkNum sign ds fs), l3)
    | 'e' :: _ => none
    | 'E' :: _ => none
    | _ => some (.num (mkNum sign ds []), l2)

mutual

def parseVal (fuel : Nat) (l : List Char) : Option (Jv × List Char) :=
  match fuel with
  | 0 => none
  | fuel + 1 =>
    let l := skipWs l
    if ("true".data).isPrefixOf l then some (.bool true, l.drop 4)
    else if ("false".data).isPrefixOf l then some (.bool false, l.drop 5)
    else if ("null".data).isPrefixOf l then some (.null, l.drop 4)
    else
      match l with
      | '"' :: rest => (parseStrBody rest).map (fun p => (.str (String.mk p.1), p.2))
      | '{' :: rest =>
        (match skipWs rest with
         | '}' :: r2 => some (.obj [], r2)
         | r2 => parseFields fuel r2 [])
      | '[' :: rest =>
        (match skipWs rest with
         | ']' :: r2 => some (.arr [], r2)
         | r2 => parseItems fuel r2 [])
      | _ => parseNum l

def parseFields (fuel : Nat) (l : List Char) (acc : List (String × Jv)) :
    Option (Jv × List Char) :=
  match fuel with
  | 0 => none
  | fuel + 1 =>
    match skipWs l with
    | '"' :: rest =>
      match parseStrBody rest with
      | none => none
      | some (k, r1) =>
        match skipWs r1 with
        | ':' :: r2 =>
          match parseVal fuel r2 with
          | none => none
          | some (v, r3) =>
            match skipWs r3 with
            | ',' :: r4 => parseFields fuel r4 (acc ++ [(String.mk k, v)])
            | '}' :: r4 => some (.obj (acc ++ [(String.mk k, v)]), r4)
            | _ => none
        | _ => none
    | _ => none

def parseItems (fuel : Nat) (l : List Char) (acc : List Jv) :
    Option (Jv × List Char) :=
  match fuel with
  | 0 => none
  | fuel + 1 =>
    match parseVal fuel l with
    | none => none
    | some (v, r1) =>
      match skipWs r1 with
      | ',' :: r2 => parseItems fuel r2 (acc ++ [v])
      | ']' :: r2 => some (.arr (acc ++ [v]), r2)
      | _ => none

end

/-- `json.loads`: the whole input must be consumed (trailing data is an
error), mirroring Python. -/
def parseJson (s : String) : Option Jv :=
  match parseVal (s.data.length + 1) s.data with
  | some (v, rest) => if (skipWs rest).isEmpty then some v else none
  | none => none

example : parseJson "\x7b\"a\": 0.8, \"b\": [1, \"x\"]\x7d" =
    some (.obj [("a", .num (dec 8 1)), ("b", .arr [.num (dec 1 0), .str "x"])]) := by
  decide

/-! ## `src/utils.py`: `strip_html`

`strip_html` applies, in order: removal of `<[^>]+>` tag spans (replaced
by a space), literal entity replacements, numeric (`&#\d+;`) and named
(`&\w+;`) entity removal, zero-width character removal, whitespace
collapsing, and a final strip. -/

/-- Split a character list at its first `'>'`: `some (before, after)` with
`before` free of `'>'`, or `none` when there is no `'>'`. -/
def splitGt : List Char → Option (List Char × List Char)
  | [] => none
  | c :: rest => if c = '>' then some ([], rest) else (splitGt rest).map (fun p => (c :: p.1, p.2))

theorem splitGt_some_append : ∀ (l b a : List Char), splitGt l = some (b, a) → l = b ++ '>' :: a := by
  intro l
  induction l with
  | nil => intro b a h; simp [splitGt] at h
  | cons c rest ih =>
    intro b a h
    simp only [splitGt] at h
    split at h
    · simp_all
    · cases hrec : splitGt rest with
      | none => rw [hrec] at h; simp at h
      | some p =>
        rw [hrec] at h
        simp at h
        obtain ⟨h1, h2⟩ := h
        have := ih p.1 p.2 (by rw [hrec])
        subst h1 h2
        simp [this]

theorem splitGt_some_len {l b a : List Char} (h : splitGt l = some (b, a)) :
    a.length < l.length := by
  have := splitGt_some_append l b a h
  subst this
  simp
  omega

theorem splitGt_none_not_mem (l : List Char) (h : splitGt l = none) : '>' ∉ l := by
  induction l with
  | nil => simp
  | cons c rest ih =>
    simp only [splitGt] at h
    intro hmem
    by_cases hc : c = '>'
    · rw [if_pos hc] at h; simp at h
    · rw [if_neg hc] at h
      rcases List.mem_cons.mp hmem with h' | h'
      · exact hc h'.symm
      · exact ih (Option.map_eq_none'.mp h) h'

/-- The `re.sub(r'<[^>]+>', ' ', text)` pass: at each `'<'`, if the first
following `'>'` is at distance at least two, the whole span is replaced by
one space and scanning resumes after it; otherwise the `'<'` is kept and
scanning moves one character on. -/
def subTags : List Char → List Char
  | [] => []
  | c :: rest =>
    if c = '<' then
      match h : splitGt rest with
      | some (b, a) => if b.isEmpty then c :: subTags rest else ' ' :: subTags a
      | none => c :: subTags rest
    else c :: subTags rest
termination_by l => l.length
decreasing_by
  all_goals simp_wf
  all_goals try omega
  all_goals (have hlen := splitGt_some_len h; omega)

/-- Decidable check for the presence of a substring matching `<[^>]+>`. -/
def hasTagShape : List Char → Bool
  | [] => false
  | c :: rest =>
    (if c = '<' then
       match splitGt rest with
       | some (b, _) => !b.isEmpty
       | none => false
     else false) || hasTagShape rest

theorem subTags_gtskip (rest b a : List Char) (hsplit : splitGt rest = some (b, a))
    (hb : b.isEmpty = true) : subTags ('<' :: rest) = '<' :: subTags rest := by
  rw [subTags]
  rw [if_pos rfl]
  split <;> simp_all

theorem subTags_span (rest b a : List Char) (hsplit : splitGt rest = some (b, a))
    (hb : ¬b.isEmpty = true) : subTags ('<' :: rest) = ' ' :: subTags a := by
  rw [subTags]
  rw [if_pos rfl]
  split <;> simp_all

theorem subTags_nogt (rest : List Char) (hsplit : splitGt rest = none) :
    subTags ('<' :: rest) = '<' :: subTags rest := by
  rw [subTags]
  rw [if_pos rfl]
  split <;> simp_all

theorem subTags_other (c : Char) (rest : List Char) (hc : ¬c = '<') :
    subTags (c :: rest) = c :: subTags rest := by
  rw [subTags]
  simp [hc]

theorem mem_subTags : ∀ (l : List Char) (c : Char), c ∈ subTags l → c = ' ' ∨ c ∈ l := by
  intro l
  induction l using subTags.induct with
  | case1 => intro c h; simp [subTags] at h
  | case2 rest b a hsplit hb ih =>
    intro d h
    rw [subTags_gtskip rest b a hsplit hb] at h
    rcases List.mem_cons.mp h with h' | h'
    · right; simp [h']
    · rcases ih d h' with h'' | h''
      · exact Or.inl h''
      · right; exact List.mem_cons_of_mem _ h''
  | case3 rest b a hsplit hb ih =>
    intro d h
    rw [subTags_span rest b a hsplit hb] at h
    rcases List.mem_cons.mp h with h' | h'
    · exact Or.inl h'
    · rcases ih d h' with h'' | h''
      · exact Or.inl h''
      · right
        rw [splitGt_some_append rest b a hsplit]
        exact List.mem_cons_of_mem _ (List.mem_append_right _ (List.mem_cons_of_mem _ h''))
  | case4 rest hsplit ih =>
    intro d h
    rw [subTags_nogt rest hsplit] at h
    rcases List.mem_cons.mp h with h' | h'
    · right; simp [h']
    · rcases ih d h' with h'' | h''
      · exact Or.inl h''
      · right; exact List.mem_cons_of_mem _ h''
  | case5 c rest hc ih =>
    intro d h
    rw [subTags_other c rest hc] at h
    rcases List.mem_cons.mp h with h' | h'
    · right; simp [h']
    · rcases ih d h' with h'' | h''
      · exact Or.inl h''
      · right; exact List.mem_cons_of_mem _ h''

/-- After the tag-removal pass, no substring matching `<[^>]+>` remains:
every HTML tag present in the input has been removed. -/
theorem subTags_tagFree : ∀ l : List Char, hasTagShape (subTags l) = false := by
  intro l
  induction l using subTags.induct with
  | case1 => simp [subTags, hasTagShape]
  | case2 rest b a hsplit hb ih =>
    have hb' : b = [] := List.isEmpty_iff.mp hb
    subst hb'
    have hr : rest = '>' :: a := by simpa using splitGt_some_append rest [] a hsplit
    subst hr
    rw [subTags_gtskip _ [] a hsplit rfl]
    have h2 : subTags ('>' :: a) = '>' :: subTags a := subTags_other '>' a (by decide)
    rw [h2] at ih ⊢
    rw [hasTagShape]
    have hsg : splitGt ('>' :: subTags a) = some ([], subTags a) := by simp [splitGt]
    simp only [if_pos rfl, hsg]
    rw [hasTagShape] at ih ⊢
    simpa using ih
  | case3 rest b a hsplit hb ih =>
    rw [subTags_span rest b a hsplit hb]
    rw [hasTagShape]
    simpa using ih
  | case4 rest hsplit ih =>
    rw [subTags_nogt rest hsplit]
    rw [hasTagShape]
    have hnogt : '>' ∉ subTags rest := by
      intro hmem
      rcases mem_subTags rest '>' hmem with h | h
      · exact absurd h (by decide)
      · exact splitGt_none_not_mem rest hsplit h
    have hsg : splitGt (subTags rest) = none := by
      cases hsg : splitGt (subTags rest) with
      | none => rfl
      | some p =>
        exfalso
        apply hnogt
        rw [splitGt_some_append (subTags rest) p.1 p.2 (by rw [hsg])]
        exact List.mem_append_right _ (List.mem_cons_self _ _)
    simp only [if_pos rfl, hsg]
    simpa using ih
  | case5 c rest hc ih =>
    rw [subTags_other c rest hc]
    rw [hasTagShape]
    rw [if_neg hc]
    simpa using ih

/-- `re.sub` with a literal pattern: replace every non-overlapping
occurrence of `pat`, scanning left to right. -/
def replaceAll (pat rep : List Char) (s : List Char) : List Char :=
  match pat, s with
  | [], s => s
  | _ :: _, [] => []
  | p :: ps, c :: rest =>
    if (p :: ps).isPrefixOf (c :: rest) then rep ++ replaceAll (p :: ps) rep (rest.drop ps.length)
    else c :: replaceAll (p :: ps) rep rest
termination_by s.length
decreasing_by
  all_goals simp_wf
  all_goals try omega
  all_goals (simp [List.length_drop]; omega)

/-- Recognise `#\d+;` (the tail of a numeric character reference) at the
head of the input and return what follows it; greediness of `\d+` forces
the digit run to be maximal. -/
def chopNumEnt (l : List Char) : Option (List Char) :=
  match l with
  | '#' :: rest2 =>
    if (rest2.takeWhile Char.isDigit).isEmpty then none
    else
      match rest2.drop (rest2.takeWhile Char.isDigit).length with
      | ';' :: rest3 => some rest3
      | _ => none
  | _ => none

theorem chopNumEnt_len {l r : List Char} (h : chopNumEnt l = some r) : r.length < l.length := by
  unfold chopNumEnt at h
  split at h
  · split at h
    · simp at h
    · rename_i rest2 _
      split at h
      · rename_i rest3 hdrop
        have := congrArg List.length hdrop
        simp [List.length_drop] at this
        simp at h
        subst h
        simp
        omega
      · simp at h
  · simp at h

/-- `re.sub(r'&#\d+;', '', text)`: numeric character reference removal. -/
def removeNumEnt : List Char → List Char
  | [] => []
  | c :: rest =>
    if c = '&' then
      match h : chopNumEnt rest with
      | some r => removeNumEnt r
      | none => c :: removeNumEnt rest
    else c :: removeNumEnt rest
termination_by l => l.length
decreasing_by
  all_goals simp_wf
  all_goals try omega
  all_goals (have hlen := chopNumEnt_len h; omega)

/-- A Python `\w` word character (ASCII fragment). -/
def isWordChar (c : Char) : Bool := c.isAlphanum || c = '_'

/-- Recognise `\w+;` at the head of the input, returning what follows. -/
def chopNamedEnt (l : List Char) : Option (List Char) :=
  if (l.takeWhile isWordChar).isEmpty then none
  else
    match l.drop (l.takeWhile isWordChar).length with
    | ';' :: rest2 => some rest2
    | _ => none

theorem chopNamedEnt_len {l r : List Char} (h : chopNamedEnt l = some r) :
    r.length < l.length := by
  unfold chopNamedEnt at h
  split at h
  · simp at h
  · split at h
    · rename_i rest2 hdrop
      have := congrArg List.length hdrop
      simp [List.length_drop] at this
      simp at h
      subst h
      omega
    · simp at h

/-- `re.sub(r'&\w+;', '', text)`: named entity removal. -/
def removeNamedEnt : List Char → List Char
  | [] => []
  | c :: rest =>
    if c = '&' then
      match h : chopNamedEnt rest with
      | some r => removeNamedEnt r
      | none => c :: removeNamedEnt rest
    else c :: removeNamedEnt rest
termination_by l => l.length
decreasing_by
  all_goals simp_wf
  all_goals try omega
  all_goals (have hlen := chopNamedEnt_len h; omega)

/-- The zero-width / invisible characters removed by the fourth-from-last
substitution (the ranges `200b`-`200f`, `2028`-`202f`, `205f`-`206f` and
`feff`). -/
def isZeroWidth (c : Char) : Bool :=
  (0x200b ≤ c.toNat && c.toNat ≤ 0x200f) || (0x2028 ≤ c.toNat && c.toNat ≤ 0x202f) ||
  (0x205f ≤ c.toNat && c.toNat ≤ 0x206f) || c.toNat = 0xfeff

/-- `re.sub(r'\s+', ' ', text)`: collapse each maximal whitespace run to a
single space (the flag records whether the previous character was part of
a run). -/
def collapseWs : Bool → List Char → List Char
  | _, [] => []
  | prevWs, c :: rest =>
    if pyIsSpace c then
      (if prevWs then collapseWs true rest else ' ' :: collapseWs true rest)
    else c :: collapseWs false rest

/-- `utils.strip_html`, stage by stage in the source's order. -/
def strip_html (html : String) : String :=
  if html.data.isEmpty then ""
  else
    let t0 := subTags html.data
    let t1 := replaceAll "&nbsp;".data " ".data t0
    let t2 := replaceAll "&#160;".data " ".data t1
    let t3 := replaceAll "&amp;".data "&".data t2
    let t4 := replaceAll "&lt;".data "<".data t3
    let t5 := replaceAll "&gt;".data ">".data t4
    let t6 := replaceAll "&quot;".data "\"".data t5
    let t7 := removeNumEnt t6
    let t8 := removeNamedEnt t7
    let t9 := t8.filter (fun c => !isZeroWidth c)
    let t10 := collapseWs false t9
    String.mk (stripEnds pyIsSpace t10)

example : collapseWs false "  a   b  ".data = " a b ".data := by decide

example : subTags "a<b>c<".data = "a c<".data := by simp [subTags, splitGt]

/-! ## `src/config.py`: the configured tag set

`valid_tags` embeds `[tag["name"] for tag in CLASSIFICATION_TAGS]` —
the name field of each entry of `CLASSIFICATION_TAGS`, in order.  (The
description and example strings of each tag only feed the prompt text and
are not embedded.) -/

def valid_tags : List String :=
  ["academic-results", "academic-exam", "academic-assignment",
   "admin-transcript", "admin-graduation",
   "finance-payment", "finance-fees", "registration",
   "technical-proctoring", "technical-access",
   "general-inquiry", "complaint-escalation"]

/-! ## `src/classifier.py`: the Classification Adapter -/

/-- The `token_usage` dict assembled from `usageMetadata` (values are kept
as raw JSON values, as the code does). -/
structure TokenUsage where
  input_tokens : Jv
  output_tokens : Jv
  total_tokens : Jv
deriving DecidableEq

/-- The dict `classify_email` returns.  `classification` is always a
`str` in the code (either the validated tag or the fallback literal), so
it is a `String` here; `reason` can be any JSON value on the success path
and is kept as `Jv`. -/
structure ClassifyOut where
  classification : String
  confidence : Dnum
  reason : Jv
  token_usage : Option TokenUsage
deriving DecidableEq

/-- Python `float(x)` restricted to the shapes that can reach it here:
numbers and booleans convert, strings parse as decimals, everything else
raises. -/
def pyFloat : Jv → Except PyErr Dnum
  | .num d => .ok d
  | .bool b => .ok (if b then dec 1 0 else dec 0 0)
  | .str s =>
    (let t := stripEnds pyIsSpace s.data
     let (sign, t1) :=
       match t with
       | '-' :: r => (true, r)
       | '+' :: r => (false, r)
       | _ => (false, t)
     let ds := t1.takeWhile Char.isDigit
     if ds.isEmpty then .error (.valueErr ("could not convert string to float: " ++ s))
     else
       match t1.drop ds.length with
       | [] => .ok (dec (if sign then -(digitsToNat ds : Int) else (digitsToNat ds : Int)) 0)
       | '.' :: r =>
         let fs := r.takeWhile Char.isDigit
         if (r.drop fs.length).isEmpty then .ok (mkNum sign ds fs)
         else .error (.valueErr ("could not convert string to float: " ++ s))
       | _ => .error (.valueErr ("could not convert string to float: " ++ s)))
  | _ => .error .typeErr

/-- Python `x * 0.5` on a JSON value (`str * float` and friends raise
`TypeError`). -/
def pyMulHalf : Jv → Except PyErr Dnum
  | .num d => .ok (dhalf d)
  | .bool b => .ok (if b then dec 5 1 else dec 0 0)
  | _ => .error .typeErr

/-- Python `x in valid_tags` for a JSON value against the `str` list. -/
def jvInValidTags (v : Jv) : Bool := valid_tags.any (fun t => jvEqStr v t)

/-- Lines 113-126 of `classifier.py`: strip the completion, remove a
leading fenced code block, and slice from the first `{` to the last `}`
when the text does not already start with `{`. -/
def extractJsonText (t : String) : List Char :=
  let t1 := stripEnds pyIsSpace t.data
  let t2 :=
    if ("```".data).isPrefixOf t1 then
      let lines := splitChar '\n' t1
      let body :=
        if stripEnds pyIsSpace (lines.getLastD []) = "```".data then (lines.drop 1).dropLast
        else lines.drop 1
      List.intercalate "\n".data body
    else t1
  match t2 with
  | '{' :: _ => t2
  | _ =>
    match t2.findIdx? (fun c => c = '{'), (t2.reverse.findIdx? (fun c => c = '}')) with
    | some si, some ri =>
      let ei := t2.length - 1 - ri
      if si < ei + 1 then (t2.drop si).take (ei + 1 - si) else t2
    | _, _ => t2

/-- Lines 129-144 of `classifier.py` from `json.loads` on: parse the
extracted text, and validate/repair the `classification` field against
the tag set, attenuating the confidence on repair. -/
def classify_validate (tu : Option TokenUsage) (txt : List Char) :
    Except PyErr ClassifyOut :=
  match parseJson (String.mk txt) with
  | none => .error .jsonDecode
  | some result =>
    match result with
    | .obj fs =>
      let clsJv := (lookupLast fs "classification").getD .null
      match clsJv with
      | .str s =>
        if valid_tags.contains s then
          match pyFloat ((lookupLast fs "confidence").getD (.num (dec 5 1))) with
          | .error e => .error e
          | .ok conf =>
            .ok { classification := s, confidence := conf,
                  reason := (lookupLast fs "reason").getD (.str "No reason provided"),
                  token_usage := tu }
        else
          match pyMulHalf ((lookupLast fs "confidence").getD (.num (dec 5 1))) with
          | .error e => .error e
          | .ok halfc =>
            .ok { classification := "general", confidence := dmax (dec 3 1) halfc,
                  reason := .str ("Invalid tag corrected to general. Original: " ++
                    jvDisplay ((lookupLast fs "reason").getD (.str "N/A"))),
                  token_usage := tu }
      | _ =>
        match pyMulHalf ((lookupLast fs "confidence").getD (.num (dec 5 1))) with
        | .error e => .error e
        | .ok halfc =>
          .ok { classification := "general", confidence := dmax (dec 3 1) halfc,
                reason := .str ("Invalid tag corrected to general. Original: " ++
                  jvDisplay ((lookupLast fs "reason").getD (.str "N/A"))),
                token_usage := tu }
    | _ => .error .attributeErr

/-- The `try:` block of `classifier.py` lines 98-144: extract the text of
the first candidate, clean it up, parse and validate. -/
def classify_try (data : Jv) (tu : Option TokenUsage) : Except PyErr ClassifyOut := do
  let candidates ← jGetE data "candidates" (.arr [])
  if ¬ pyTruthy candidates then throw (.valueErr "No candidates in response")
  let c0 ← pyIndex0 candidates
  let content ← jGetE c0 "content" (.obj [])
  let parts ← jGetE content "parts" (.arr [])
  if ¬ pyTruthy parts then throw (.valueErr "No parts in response")
  let p0 ← pyIndex0 parts
  let trJv ← jGetE p0 "text" (.str "")
  match trJv with
  | .str s => classify_validate tu (extractJsonText s)
  | _ => throw .attributeErr

/-- The exception classes named in the `except` clause of
`classifier.py` line 146. -/
def isCaughtByClassifier : PyErr → Bool
  | .jsonDecode => true
  | .keyErr => true
  | .indexErr => true
  | .typeErr => true
  | .valueErr _ => true
  | .attributeErr => false
  | .exceptionErr _ => false

/-- The Gemini endpoint as an oracle: the `fetch` call can raise, return a
non-2xx status, or succeed with a JSON body. -/
inductive GeminiResp where
  | netError
  | httpError (status : Nat)
  | ok (data : Jv)

/-- `classifier.classify_email` after the HTTP exchange: HTTP errors give
the fallback result; on success the usage metadata is read (outside the
`try`, so a malformed body raises out of the function), then the reply is
parsed and validated, with parse/shape errors repaired to the fallback. -/
def classify_email (resp : GeminiResp) : Except PyErr ClassifyOut :=
  match resp with
  | .netError => .error (.exceptionErr "fetch failed")
  | .httpError status =>
    .ok { classification := "general", confidence := dec 0 0,
          reason := .str ("Classification failed: " ++ toString status),
          token_usage := none }
  | .ok data => do
    let um ← jGetE data "usageMetadata" (.obj [])
    let tu ←
      (if pyTruthy um then
        match um with
        | .obj fs =>
          .ok (some { input_tokens := (lookupLast fs "promptTokenCount").getD (.num (dec 0 0)),
                      output_tokens := (lookupLast fs "candidatesTokenCount").getD (.num (dec 0 0)),
                      total_tokens := (lookupLast fs "totalTokenCount").getD (.num (dec 0 0)) })
        | _ => .error .attributeErr
       else .ok none)
    match classify_try data tu with
    | .ok out => .ok out
    | .error e =>
      if isCaughtByClassifier e then
        .ok { classification := "general", confidence := dec 0 0,
              reason := .str ("Failed to parse response: " ++ errStr e),
              token_usage := tu }
      else .error e

/-- The `user_prompt` f-string of `classifier.py` lines 40-45: the body is
`strip_html`-cleaned and then truncated to 5000 characters. -/
def user_prompt (subject body : String) : String :=
  "Please classify the following email:\n\nSUBJECT: " ++ subject ++
  "\n\nBODY:\n" ++ pyTake (strip_html body) 5000

example : extractJsonText "  \x7b\"a\": 1\x7d  " = "\x7b\"a\": 1\x7d".data := by decide

example : extractJsonText "```json\n\x7b\"a\": 1\x7d\n```" = "\x7b\"a\": 1\x7d".data := by decide

/-! ## `src/presidio.py`: the Redaction Adapter

The analyzer and anonymizer are external HTTP services, modelled as
oracles.  The analyzer's successful JSON body is taken to be a list of
well-formed entity records (the fields the code reads are present with
the right types); the anonymizer's successful body is its optional
`"text"` string field. -/

/-- One analyzer result record (the fields the code reads).  `start_` and
`end_` embed the `"start"`/`"end"` keys (`end` is a Lean keyword). -/
structure Entity where
  entity_type : String
  start_ : Nat
  end_ : Nat
  score : Dnum
deriving DecidableEq, Repr

inductive AnalyzerResp where
  | netError
  | httpError (status : Nat)
  | ok (results : List Entity)

inductive AnonResp where
  | netError
  | httpError (status : Nat)
  | ok (textField : Option String)

/-- The ambient Presidio configuration and the two service oracles. -/
structure PresidioEnv where
  enabled : Bool
  analyzer : String → AnalyzerResp
  anonymizer : String → List Entity → AnonResp

/-- `PRESIDIO_CONFIG["regent_domains"]`. -/
def regent_domains : List String := ["@regent.ac.za", "@myregent.ac.za"]

/-- `presidio.analyze_text`: returns the detected entities, or `[]` when
masking is disabled or the service is unreachable or non-2xx (soft fail). -/
def analyze_text (env : PresidioEnv) (text : String) : List Entity :=
  if ¬ env.enabled then []
  else
    match env.analyzer text with
    | .netError => []
    | .httpError _ => []
    | .ok results => results

/-- `presidio.filter_regent_emails`: drop `EMAIL_ADDRESS` entities whose
span (lower-cased) contains a configured trusted domain. -/
def filter_regent_emails (text : String) (analyzer_results : List Entity) : List Entity :=
  analyzer_results.filter (fun r =>
    !(r.entity_type == "EMAIL_ADDRESS" &&
      regent_domains.any (fun d =>
        containsSub d.data (pyLower (pySlice text.data r.start_ r.end_)))))

/-- `presidio.anonymize_text`: besides the resulting text, the list of
requests actually sent to the anonymizer service is returned, so that
theorems can speak about the entity list a request carries. -/
def anonymize_text (env : PresidioEnv) (text : String) (analyzer_results : List Entity) :
    String × List (String × List Entity) :=
  if (!env.enabled || analyzer_results.isEmpty) = true then (text, [])
  else
    let filtered_results := filter_regent_emails text analyzer_results
    if filtered_results.isEmpty then (text, [])
    else
      match env.anonymizer text filtered_results with
      | .netError => (text, [(text, filtered_results)])
      | .httpError _ => (text, [(text, filtered_results)])
      | .ok none => (text, [(text, filtered_results)])
      | .ok (some s) => (s, [(text, filtered_results)])

/-- The dict `mask_pii` returns. -/
structure MaskResult where
  masked_text : String
  original_text : String
  entities_found : Nat
  entities_masked : Nat
  success : Bool
deriving DecidableEq, Repr

/-- `presidio.mask_pii`.  The `except` fallback of the source is
unreachable here because the modelled analyzer always hands back
well-formed records. -/
def mask_pii (env : PresidioEnv) (text : String) : MaskResult :=
  let base : MaskResult :=
    { masked_text := text, original_text := text,
      entities_found := 0, entities_masked := 0, success := false }
  if ¬ env.enabled then base
  else if (stripEnds pyIsSpace text.data).isEmpty then base
  else
    let analyzer_results := analyze_text env text
    if analyzer_results.isEmpty then
      { base with success := true }
    else
      let filtered_results := filter_regent_emails text analyzer_results
      { masked_text := (anonymize_text env text analyzer_results).1,
        original_text := text,
        entities_found := analyzer_results.length,
        entities_masked := filtered_results.length,
        success := true }

/-- The dict `mask_email_content` returns. -/
structure MaskedEmail where
  subject : String
  body : String
  from_name : String
  from_address : String
  original_subject : String
  original_body : String
  total_entities_found : Nat
  total_entities_masked : Nat
  success : Bool
deriving DecidableEq, Repr

/-- `presidio.mask_email_content`: apply `mask_pii` to the four fields
(the sender fields only when non-empty) and sum the counts. -/
def mask_email_content (env : PresidioEnv) (subject body from_name from_address : String) :
    MaskedEmail :=
  let base : MaskedEmail :=
    { subject := subject, body := body, from_name := from_name, from_address := from_address,
      original_subject := subject, original_body := body,
      total_entities_found := 0, total_entities_masked := 0, success := false }
  if ¬ env.enabled then base
  else
    let rs := mask_pii env subject
    let rb := mask_pii env body
    let rn := if from_name ≠ "" then mask_pii env from_name else
      { masked_text := from_name, original_text := from_name,
        entities_found := 0, entities_masked := 0, success := false }
    let ra := if from_address ≠ "" then mask_pii env from_address else
      { masked_text := from_address, original_text := from_address,
        entities_found := 0, entities_masked := 0, success := false }
    { subject := rs.masked_text, body := rb.masked_text,
      from_name := rn.masked_text, from_address := ra.masked_text,
      original_subject := subject, original_body := body,
      total_entities_found :=
        rs.entities_found + rb.entities_found + rn.entities_found + ra.entities_found,
      total_entities_masked :=
        rs.entities_masked + rb.entities_masked + rn.entities_masked + ra.entities_masked,
      success := true }

/-! ## `src/database.py`: the Persistence Layer

The D1 store is a list of rows keyed by an auto-increment id (modelled as
`length + 1`).  Bound parameters keep Python's dynamism: a `None`
argument is stored as SQL `NULL`, strings as `TEXT`, floats as `REAL`. -/

inductive SqlValue where
  | null
  | text (s : String)
  | real (d : Dnum)
  | integer (n : Int)
deriving DecidableEq, Repr

/-- A row of the `emails` table (the bound columns; the
`CURRENT_TIMESTAMP` defaults are not modelled). -/
structure EmailRow where
  message_id : SqlValue
  conversation_id : SqlValue
  subject : SqlValue
  snippet : SqlValue
  from_address : SqlValue
  from_name : SqlValue
  classification : SqlValue
  confidence : SqlValue
  reason : SqlValue
  draft_reply : SqlValue
  received_at : SqlValue
deriving DecidableEq, Repr

/-- How a Python value is bound into a D1 statement.  Lists/dicts cannot
be bound and never reach a bind in the modelled flows; they are mapped to
`null` here. -/
def sqlOfJv : Jv → SqlValue
  | .null => .null
  | .str s => .text s
  | .num d => .real d
  | .bool b => .integer (if b then 1 else 0)
  | .arr _ => .null
  | .obj _ => .null

/-- `database.email_exists`: `SELECT 1 FROM emails WHERE message_id = ?`
returns a row exactly when some stored row has that `message_id`; the
D1-result checks in the source then map a row to `True` and no row to
`False`. -/
def email_exists (emails : List (Nat × EmailRow)) (message_id : String) : Bool :=
  emails.any (fun p => p.2.message_id == SqlValue.text message_id)

/-- The parameter names of `database.save_email` (after the positional
`db`). -/
def save_email_params : List String :=
  ["message_id", "subject", "snippet", "from_address", "from_name",
   "classification", "confidence", "reason", "received_at",
   "conversation_id", "draft_reply"]

/-- `database.save_email`: normalize the optional string fields (`x if x
else default`) and insert; returns the new store and
`result.meta.last_row_id`. -/
def save_email (emails : List (Nat × EmailRow))
    (message_id subject snippet from_address from_name classification
     confidence reason received_at conversation_id draft_reply : Jv) :
    List (Nat × EmailRow) × Nat :=
  let safe_draft := if pyTruthy draft_reply then draft_reply else .str ""
  let safe_subject := if pyTruthy subject then subject else .str "(No subject)"
  let safe_snippet := if pyTruthy snippet then snippet else .str ""
  let safe_from_addr := if pyTruthy from_address then from_address else .str ""
  let safe_from_name := if pyTruthy from_name then from_name else .str ""
  let safe_reason := if pyTruthy reason then reason else .str ""
  let safe_received := if pyTruthy received_at then received_at else .str ""
  let safe_conversation_id := if pyTruthy conversation_id then conversation_id else .str ""
  let row : EmailRow :=
    { message_id := sqlOfJv message_id,
      conversation_id := sqlOfJv safe_conversation_id,
      subject := sqlOfJv safe_subject,
      snippet := sqlOfJv safe_snippet,
      from_address := sqlOfJv safe_from_addr,
      from_name := sqlOfJv safe_from_name,
      classification := sqlOfJv classification,
      confidence := sqlOfJv confidence,
      reason := sqlOfJv safe_reason,
      draft_reply := sqlOfJv safe_draft,
      received_at := sqlOfJv safe_received }
  let new_id := emails.length + 1
  (emails ++ [(new_id, row)], new_id)

/-- Modelled from the spec: `save_llm_usage` is imported and called by the
orchestrator but its definition is absent from the sources under `src/`
(`database.py` stops after `get_conversation_stats`).  Per the spec's
LLMUsageRecord: model name, operation name, input/output/total token
counts, and a foreign reference to the email row. -/
structure UsageRow where
  email_id : Nat
  model : String
  operation : String
  input_tokens : Jv
  output_tokens : Jv
  total_tokens : Jv
deriving DecidableEq

/-- Modelled from the spec: append an LLMUsageRecord keyed to `email_id`. -/
def save_llm_usage (usage : List UsageRow) (r : UsageRow) : List UsageRow :=
  usage ++ [r]

/-- The cross-invocation persistent state: the two tables. -/
structure Store where
  emails : List (Nat × EmailRow)
  usage : List UsageRow
deriving DecidableEq

def Store.empty : Store := { emails := [], usage := [] }

/-! ## `src/entry.py`: the Notification Orchestrator -/

/-- External side-effecting calls performed while handling one message,
in order. -/
inductive Eff where
  | existsCheck (message_id : String)
  | tokenFetch
  | fetchMessage (message_id : String)
  | maskContent
  | geminiCall (subject body : String)
  | applyCategory (message_id category : String)
  | dbInsert (message_id : String)
  | dbInsertUsage (email_id : Nat)
deriving DecidableEq, Repr

/-- The dict `msgraph.get_email_by_id` returns (string fields default to
`""`; the `id`/`categories` members are never read by the orchestrator). -/
structure EmailMsg where
  subject : String
  body_preview : String
  body_content : String
  from_address : String
  from_name : String
  received_datetime : String
  conversation_id : String
deriving DecidableEq, Repr

/-- The worker's environment bindings plus one oracle per external
service, fixed for the duration of an invocation. -/
structure Env where
  secret : String
  token : Except PyErr Unit
  fetchEmail : String → Except PyErr EmailMsg
  presidio : PresidioEnv
  gemini : GeminiResp
  applyCategoryResult : String → String → Except PyErr Bool

/-- The keyword arguments `entry.py` lines 240-254 pass to `save_email`
(after the positional `db`). -/
def entry_save_kwargs : List String :=
  ["message_id", "subject", "snippet", "from_address", "from_name",
   "classification", "confidence", "reason", "received_at",
   "conversation_id", "body_text"]

/-- Python keyword binding: a call is accepted exactly when every keyword
matches a parameter name. -/
def save_call_accepted : Bool :=
  entry_save_kwargs.all (fun k => save_email_params.contains k)

/-- `Default._process_email`: the idempotency gate, then token fetch,
message fetch, masking, classification, best-effort tagging, and the
save.  Every failure is caught by the enclosing `try` and merely ends the
procedure.  The `save_email` call passes the keyword `body_text`, which
`save_email` does not accept, so when control reaches the save the call
raises `TypeError` and the row (and any usage record) is not written. -/
def process_email (env : Env) (st : Store) (message_id : String) : Store × List Eff :=
  if email_exists st.emails message_id then (st, [.existsCheck message_id])
  else
    let tr1 : List Eff := [.existsCheck message_id, .tokenFetch]
    match env.token with
    | .error _ => (st, tr1)
    | .ok _ =>
      let tr2 := tr1 ++ [.fetchMessage message_id]
      match env.fetchEmail message_id with
      | .error _ => (st, tr2)
      | .ok email =>
        let masked := mask_email_content env.presidio email.subject email.body_content
          email.from_name email.from_address
        let tr3 := tr2 ++ [.maskContent]
        let tr4 := tr3 ++ [.geminiCall masked.subject masked.body]
        match classify_email env.gemini with
        | .error _ => (st, tr4)
        | .ok cres =>
          let classification := cres.classification
          let confidence := cres.confidence
          let category_name := pyTitle (replaceChar '-' ' ' classification)
          let tr5 := tr4 ++ [.applyCategory message_id category_name]
          let reasonV := if pyTruthy cres.reason then cres.reason else Jv.str "No reason"
          if save_call_accepted then
            let subject_arg := if email.subject ≠ "" then email.subject else "(No subject)"
            let snippet_arg := pyTake email.body_preview 500
            let (emails2, email_id) := save_email st.emails
              (.str message_id) (.str subject_arg) (.str snippet_arg)
              (.str email.from_address) (.str email.from_name)
              (.str classification) (.num confidence) reasonV
              (.str email.received_datetime) (.str email.conversation_id) (.str "")
            let tr6 := tr5 ++ [.dbInsert message_id]
            match cres.token_usage with
            | some tu =>
              if email_id ≠ 0 then
                ({ emails := emails2,
                   usage := save_llm_usage st.usage
                     { email_id := email_id, model := "gemini-2.5-flash",
                       operation := "classification",
                       input_tokens := tu.input_tokens,
                       output_tokens := tu.output_tokens,
                       total_tokens := tu.total_tokens } },
                 tr6 ++ [.dbInsertUsage email_id])
              else ({ emails := emails2, usage := st.usage }, tr6)
            | none => ({ emails := emails2, usage := st.usage }, tr6)
          else (st, tr5)

/-- Extract the message id from a resource path: the segment after the
first `"messages"` segment (case-insensitive) that has a successor. -/
def findMessageId : List String → Option String
  | [] => none
  | [_] => none
  | x :: y :: rest =>
    if String.mk (pyLower x.data) = "messages" then some y
    else findMessageId (y :: rest)

/-- One iteration of the notification loop (lines 130-162 of `entry.py`).
`ok` means the loop continues; `error` models an exception escaping the
iteration (possible only while reading fields of a malformed entry —
`process_email` catches everything).  Either way the state at that point
is carried along. -/
def entryStep (env : Env) (st : Store × List Eff) (entry : Jv) :
    Except (Store × List Eff) (Store × List Eff) :=
  match entry with
  | .obj _ =>
    let notification_state := objGetD entry "clientState" (.str "")
    if ¬ jvEqStr notification_state env.secret then .ok st
    else
      let change_type := objGetD entry "changeType" (.str "")
      if ¬ jvEqStr change_type "created" then .ok st
      else
        match objGetD entry "resource" (.str "") with
        | .str resource =>
          let parts := (splitChar '/' resource.data).map String.mk
          match findMessageId parts with
          | some message_id =>
            if message_id ≠ "" then
              let r := process_email env st.1 message_id
              .ok (r.1, st.2 ++ r.2)
            else .ok st
          | none => .ok st
        | _ => .error st
  | _ => .error st

/-- The `for` loop over notifications: an exception escaping an iteration
abandons the remaining entries (it is caught only by the handler-level
`except`, which still answers 202). -/
def processNotifications (env : Env) : List Jv → Store × List Eff → Store × List Eff
  | [], st => st
  | e :: rest, st =>
    match entryStep env st e with
    | .ok st2 => processNotifications env rest st2
    | .error st2 => st2

structure HttpResponse where
  status : Nat
  body : String
deriving DecidableEq, Repr

/-- `Default._handle_webhook_notification`: parse the body, walk the
`value` array, and answer `202` with an empty body on every path
(malformed JSON and any escaping exception land in the `except`, which
also answers 202). -/
def handle_webhook_notification (env : Env) (st : Store) (raw : String) :
    HttpResponse × Store × List Eff :=
  match parseJson raw with
  | none => ({ status := 202, body := "" }, st, [])
  | some bodyJv =>
    match bodyJv with
    | .obj fs =>
      match (lookupLast fs "value").getD (.arr []) with
      | .arr notifications =>
        let r := processNotifications env notifications (st, [])
        ({ status := 202, body := "" }, r.1, r.2)
      | _ => ({ status := 202, body := "" }, st, [])
    | _ => ({ status := 202, body := "" }, st, [])

/-- `params.get("validationToken", [None])[0]` over the parsed query
multi-map (first occurrence; `parse_qs` drops empty values, so values are
never the empty string). -/
def queryFirst (query : List (String × String)) (k : String) : Option String :=
  (query.find? (fun p => p.1 == k)).map (fun p => p.2)

/-- `if validation_token:` — absent is falsy; a present `parse_qs` value
is a non-empty string, but emptiness is still checked faithfully. -/
def tokenTruthy : Option String → Bool
  | none => false
  | some t => t ≠ ""

/-- `Default.fetch`, the routes relevant to the webhook contract.  The
remaining administrative and read-only routes are represented by a tagged
response whose body is not modelled further; none of them touch the
notification pipeline. -/
def fetchRoute (env : Env) (st : Store) (method path : String)
    (query : List (String × String)) (raw : String) :
    HttpResponse × Store × List Eff :=
  if path = "/" ∧ method = "GET" then
    ({ status := 200, body := "<health json>" }, st, [])
  else if path = "/webhook" ∧ tokenTruthy (queryFirst query "validationToken") then
    ({ status := 200, body := (queryFirst query "validationToken").getD "" }, st, [])
  else if path = "/webhook" ∧ method = "GET" then
    ({ status := 400, body := "Missing validationToken" }, st, [])
  else if path = "/webhook" ∧ method = "POST" then
    handle_webhook_notification env st raw
  else if path = "/subscriptions" ∧ (method = "GET" ∨ method = "POST" ∨ method = "DELETE") then
    ({ status := 200, body := "<subscription endpoint>" }, st, [])
  else if (path = "/stats" ∨ path = "/emails" ∨ path = "/conversations") ∧ method = "GET" then
    ({ status := 200, body := "<read endpoint>" }, st, [])
  else if "/conversation/".isPrefixOf path ∧ method = "GET" then
    ({ status := 200, body := "<read endpoint>" }, st, [])
  else if path = "/init-db" ∧ method = "POST" then
    ({ status := 200, body := "<init>" }, st, [])
  else if path = "/presidio-config" ∧ method = "GET" then
    ({ status := 200, body := "<config>" }, st, [])
  else if path = "/llm-usage" ∧ method = "GET" then
    ({ status := 200, body := "<read endpoint>" }, st, [])
  else ({ status := 404, body := "Not Found" }, st, [])

/-! ## Claim theorems -/

deriving instance DecidableEq for Except

/-- The number of stored rows carrying a given message id. -/
def rows_for (emails : List (Nat × EmailRow)) (m : String) : Nat :=
  (emails.filter (fun p => p.2.message_id == SqlValue.text m)).length

/-- The raw completion of the malformed-reply scenario. -/
def c7_raw : String :=
  "Sure! ```json\n\x7b\"classification\": \"finance-payment\", \"confidence\": 0.8, \"reason\": \"fees\"\x7d\n```"

/-- A successful Gemini response whose only candidate text is `c7_raw`
(no usage metadata). -/
def c7_resp : GeminiResp :=
  .ok (.obj [("candidates", .arr [.obj [("content",
    .obj [("parts", .arr [.obj [("text", .str c7_raw)]])])]])])

/-- C7: on the conversational completion wrapping a fenced JSON block,
the adapter's response handling slices out the JSON object between the
first `{` and the last `}` and returns classification
`"finance-payment"`, confidence `0.8` and reason `"fees"`. -/
theorem c7_wrapped_json_extracted :
    classify_email c7_resp =
      .ok { classification := "finance-payment", confidence := dec 8 1,
            reason := .str "fees", token_usage := none } := by
  decide

/-- A parsed model reply carrying a classification outside the tag set. -/
def c2_raw : String :=
  "\x7b\"classification\": \"bogus\", \"confidence\": 0.8, \"reason\": \"x\"\x7d"

def c2_resp : GeminiResp :=
  .ok (.obj [("candidates", .arr [.obj [("content",
    .obj [("parts", .arr [.obj [("text", .str c2_raw)]])])]])])

/-- C2: the repair path rewrites an unknown tag to the literal
`"general"` and attenuates the confidence to `max(0.3, 0.8 * 0.5) = 0.4`
— but `"general"` is not a member of the configured tag set (the set
names `"general-inquiry"`), so the claimed tag-set closure fails on the
code: the adapter's output classification lies outside `valid_tags`. -/
theorem c2_fallback_tag_outside_set :
    classify_email c2_resp =
      .ok { classification := "general", confidence := dmax (dec 3 1) (dhalf (dec 8 1)),
            reason := .str "Invalid tag corrected to general. Original: x",
            token_usage := none } ∧
    dmax (dec 3 1) (dhalf (dec 8 1)) = dec 4 1 ∧
    valid_tags.contains "general" = false := by
  decide

set_option maxRecDepth 8192 in
/-- C9: a GET to `/webhook` whose query carries no `validationToken`
answers `400` with body `"Missing validationToken"`, leaves the store
unchanged and performs no notification processing. -/
theorem c9_get_webhook_missing_token (env : Env) (st : Store)
    (query : List (String × String)) (raw : String)
    (h : queryFirst query "validationToken" = none) :
    fetchRoute env st "GET" "/webhook" query raw =
      ({ status := 400, body := "Missing validationToken" }, st, []) := by
  unfold fetchRoute
  rw [h]
  simp [tokenTruthy]

/-- A throwaway environment for closed instantiations. -/
def c9_env : Env :=
  { secret := "s", token := .ok (), fetchEmail := fun _ => .error .attributeErr,
    presidio := { enabled := false, analyzer := fun _ => .netError,
                  anonymizer := fun _ _ => .netError },
    gemini := .netError, applyCategoryResult := fun _ _ => .ok false }

theorem c9_get_webhook_missing_token_witness :
    fetchRoute c9_env Store.empty "GET" "/webhook" [] "" =
      ({ status := 400, body := "Missing validationToken" }, Store.empty, []) :=
  c9_get_webhook_missing_token c9_env Store.empty [] "" rfl

/-- C10: the body text embedded in the classification prompt is
`strip_html(body)[:5000]` — the HTML-stripping runs first and the 5000
character budget is applied to its output, which therefore never exceeds
5000 characters; and the tag-removal stage leaves no substring matching
`<[^>]+>`, so no HTML tag of the input survives into the prompt. -/
theorem c10_prompt_strips_then_truncates (subject body : String) :
    user_prompt subject body =
      "Please classify the following email:\n\nSUBJECT: " ++ subject ++ "\n\nBODY:\n" ++
        pyTake (strip_html body) 5000 ∧
    (pyTake (strip_html body) 5000).length ≤ 5000 ∧
    hasTagShape (subTags body.data) = false := by
  refine ⟨rfl, ?_, subTags_tagFree body.data⟩
  show (String.mk ((strip_html body).data.take 5000)).length ≤ 5000
  have h5 : ((strip_html body).data.take 5000).length ≤ 5000 := by
    rw [List.length_take]
    omega
  exact h5

/-- C6: an `EMAIL_ADDRESS` entity whose span contains a configured
trusted domain is removed by `filter_regent_emails`, and consequently is
absent from the entity list of every request `anonymize_text` sends to
the anonymizer service — the trusted address is never among the spans the
service is asked to replace. -/
theorem c6_trusted_domain_never_sent (text : String) (rs : List Entity) (e : Entity)
    (h1 : e ∈ rs) (h2 : e.entity_type = "EMAIL_ADDRESS") (d : String)
    (hd : d ∈ regent_domains)
    (hc : containsSub d.data (pyLower (pySlice text.data e.start_ e.end_)) = true) :
    e ∉ filter_regent_emails text rs ∧
    ∀ (env : PresidioEnv) (req : String × List Entity),
      req ∈ (anonymize_text env text rs).2 → e ∉ req.2 := by
  have hany : regent_domains.any
      (fun dd => containsSub dd.data (pyLower (pySlice text.data e.start_ e.end_))) = true := by
    rw [List.any_eq_true]
    exact ⟨d, hd, hc⟩
  have hnot : e ∉ filter_regent_emails text rs := by
    intro hmem
    have hp := (List.mem_filter.mp hmem).2
    rw [h2] at hp
    simp [hany] at hp
  refine ⟨hnot, ?_⟩
  intro env req hreq
  unfold anonymize_text at hreq
  by_cases hg : (!env.enabled || rs.isEmpty) = true
  · rw [if_pos hg] at hreq
    simp at hreq
  · rw [if_neg hg] at hreq
    by_cases hf : (filter_regent_emails text rs).isEmpty = true
    · rw [if_pos hf] at hreq
      simp at hreq
    · rw [if_neg hf] at hreq
      cases hor : env.anonymizer text (filter_regent_emails text rs) with
      | netError =>
        rw [hor] at hreq
        simp at hreq
        rw [hreq]
        exact hnot
      | httpError s =>
        rw [hor] at hreq
        simp at hreq
        rw [hreq]
        exact hnot
      | ok o =>
        rw [hor] at hreq
        cases o with
        | none =>
          simp at hreq
          rw [hreq]
          exact hnot
        | some s =>
          simp at hreq
          rw [hreq]
          exact hnot

def c6w_text : String := "contact admin@regent.ac.za now"

def c6w_entity : Entity :=
  { entity_type := "EMAIL_ADDRESS", start_ := 8, end_ := 26, score := dec 85 2 }

theorem c6_trusted_domain_never_sent_witness :
    c6w_entity ∉ filter_regent_emails c6w_text [c6w_entity] ∧
    ∀ (env : PresidioEnv) (req : String × List Entity),
      req ∈ (anonymize_text env c6w_text [c6w_entity]).2 → c6w_entity ∉ req.2 :=
  c6_trusted_domain_never_sent c6w_text [c6w_entity] c6w_entity (by decide) (by decide)
    "@regent.ac.za" (by decide) (by decide)

/-- A Presidio environment whose analyzer is unreachable. -/
def c5c_env : PresidioEnv :=
  { enabled := true, analyzer := fun _ => .netError, anonymizer := fun _ _ => .netError }

def c5c_text : String := "call 0821234567"

/-- C5 counterexample: with the analysis service unreachable, `mask_pii`
does return the original text as the masked text, but its success flag is
`True` (the source comments `# No PII found is still a success`), not
`False` as the claim states. -/
theorem c5_analyzer_down_success_true :
    (mask_pii c5c_env c5c_text).masked_text = c5c_text ∧
    ¬ ((mask_pii c5c_env c5c_text).success = false) := by
  decide

/-- The analysis service is unreachable or answers non-2xx. -/
def analyzerUnavailable (env : PresidioEnv) : Prop :=
  ∀ t, env.analyzer t = .netError ∨ ∃ s, env.analyzer t = .httpError s

/-- The anonymization service is unreachable or answers non-2xx. -/
def anonymizerUnavailable (env : PresidioEnv) : Prop :=
  ∀ t es, env.anonymizer t es = .netError ∨ ∃ s, env.anonymizer t es = .httpError s

/-- C5 (amended): when either Presidio service is unavailable, the
redaction result always carries the original, unmodified text as its
masked text; the success flag, however, is `False` exactly when the input
is empty or blank — an unavailable service is reported as a soft success
(`success = True`). -/
theorem c5_soft_fail_returns_original (env : PresidioEnv) (text : String)
    (hen : env.enabled = true)
    (hdown : analyzerUnavailable env ∨ anonymizerUnavailable env) :
    (mask_pii env text).masked_text = text ∧
    ((mask_pii env text).success = false ↔ (stripEnds pyIsSpace text.data).isEmpty = true) := by
  unfold mask_pii
  by_cases hblank : (stripEnds pyIsSpace text.data).isEmpty = true
  · simp [hen, hblank]
  · rcases hdown with hA | hN
    · have hempty : analyze_text env text = [] := by
        rcases hA text with h | ⟨s, h⟩ <;> simp [analyze_text, hen, h]
      simp [hen, hblank, hempty]
    · by_cases hA : (analyze_text env text).isEmpty = true
      · simp [hen, hblank, hA]
      · have hmask : (anonymize_text env text (analyze_text env text)).1 = text := by
          unfold anonymize_text
          by_cases hF : (filter_regent_emails text (analyze_text env text)).isEmpty = true
          · simp [hen, hA, hF]
          · rcases hN text (filter_regent_emails text (analyze_text env text)) with h | ⟨s, h⟩ <;>
              simp [hen, hA, hF, h]
        simp [hen, hblank, hA, hmask]

/-- An environment with the analyzer down but the anonymizer healthy. -/
def c5w_env : PresidioEnv :=
  { enabled := true, analyzer := fun _ => .netError,
    anonymizer := fun _ _ => .ok (some "<MASKED>") }

theorem c5_soft_fail_returns_original_witness :
    (mask_pii c5w_env "hello there").masked_text = "hello there" ∧
    ((mask_pii c5w_env "hello there").success = false ↔
      (stripEnds pyIsSpace "hello there".data).isEmpty = true) :=
  c5_soft_fail_returns_original c5w_env "hello there" rfl (Or.inl (fun _ => Or.inl rfl))

def dummy_row : EmailRow :=
  { message_id := .null, conversation_id := .null, subject := .null, snippet := .null,
    from_address := .null, from_name := .null, classification := .null, confidence := .null,
    reason := .null, draft_reply := .null, received_at := .null }

/-- The row written by a `save_email` call (the store grows by exactly
one row at the end). -/
def saved_row (emails : List (Nat × EmailRow))
    (message_id subject snippet from_address from_name classification
     confidence reason received_at conversation_id draft_reply : Jv) : EmailRow :=
  ((save_email emails message_id subject snippet from_address from_name classification
      confidence reason received_at conversation_id draft_reply).1.getLastD (0, dummy_row)).2

/-- C8 counterexample: a falsy `subject` is stored as the placeholder
`"(No subject)"`, not as the empty string the claim requires. -/
theorem c8_falsy_subject_stored_as_placeholder :
    (saved_row [] (.str "m-c8") .null .null .null .null (.str "general-inquiry")
        (.num (dec 5 1)) .null .null .null .null).subject = .text "(No subject)" ∧
    ¬ ((saved_row [] (.str "m-c8") .null .null .null .null (.str "general-inquiry")
        (.num (dec 5 1)) .null .null .null .null).subject = .text "") := by
  decide

/-- C8 (amended): every optional string column except `subject` is
normalized to the empty string when the incoming value is null, absent or
falsy; a falsy `subject` is normalized to `"(No subject)"` instead
(`message_id`, `classification` and `confidence` are bound unchanged). -/
theorem c8_falsy_fields_normalized (emails : List (Nat × EmailRow))
    (message_id subject snippet from_address from_name classification
     confidence reason received_at conversation_id draft_reply : Jv) :
    (pyTruthy subject = false →
      (saved_row emails message_id subject snippet from_address from_name classification
        confidence reason received_at conversation_id draft_reply).subject =
          .text "(No subject)") ∧
    (pyTruthy snippet = false →
      (saved_row emails message_id subject snippet from_address from_name classification
        confidence reason received_at conversation_id draft_reply).snippet = .text "") ∧
    (pyTruthy from_address = false →
      (saved_row emails message_id subject snippet from_address from_name classification
        confidence reason received_at conversation_id draft_reply).from_address = .text "") ∧
    (pyTruthy from_name = false →
      (saved_row emails message_id subject snippet from_address from_name classification
        confidence reason received_at conversation_id draft_reply).from_name = .text "") ∧
    (pyTruthy reason = false →
      (saved_row emails message_id subject snippet from_address from_name classification
        confidence reason received_at conversation_id draft_reply).reason = .text "") ∧
    (pyTruthy received_at = false →
      (saved_row emails message_id subject snippet from_address from_name classification
        confidence reason received_at conversation_id draft_reply).received_at = .text "") ∧
    (pyTruthy conversation_id = false →
      (saved_row emails message_id subject snippet from_address from_name classification
        confidence reason received_at conversation_id draft_reply).conversation_id =
          .text "") ∧
    (pyTruthy draft_reply = false →
      (saved_row emails message_id subject snippet from_address from_name classification
        confidence reason received_at conversation_id draft_reply).draft_reply = .text "") := by
  refine ⟨?_, ?_, ?_, ?_, ?_, ?_, ?_, ?_⟩ <;>
    (intro h; simp [saved_row, save_email, List.getLastD_concat, h, sqlOfJv])

theorem c8_falsy_fields_normalized_witness :
    (saved_row [] (.str "m-w8") (.str "") .null .null .null (.str "general-inquiry")
        (.num (dec 5 1)) .null .null .null .null).subject = .text "(No subject)" ∧
    (saved_row [] (.str "m-w8") (.str "") .null .null .null (.str "general-inquiry")
        (.num (dec 5 1)) .null .null .null .null).snippet = .text "" ∧
    (saved_row [] (.str "m-w8") (.str "") .null .null .null (.str "general-inquiry")
        (.num (dec 5 1)) .null .null .null .null).from_address = .text "" ∧
    (saved_row [] (.str "m-w8") (.str "") .null .null .null (.str "general-inquiry")
        (.num (dec 5 1)) .null .null .null .null).from_name = .text "" ∧
    (saved_row [] (.str "m-w8") (.str "") .null .null .null (.str "general-inquiry")
        (.num (dec 5 1)) .null .null .null .null).reason = .text "" ∧
    (saved_row [] (.str "m-w8") (.str "") .null .null .null (.str "general-inquiry")
        (.num (dec 5 1)) .null .null .null .null).received_at = .text "" ∧
    (saved_row [] (.str "m-w8") (.str "") .null .null .null (.str "general-inquiry")
        (.num (dec 5 1)) .null .null .null .null).conversation_id = .text "" ∧
    (saved_row [] (.str "m-w8") (.str "") .null .null .null (.str "general-inquiry")
        (.num (dec 5 1)) .null .null .null .null).draft_reply = .text "" := by
  have H := c8_falsy_fields_normalized [] (.str "m-w8") (.str "") .null .null .null
    (.str "general-inquiry") (.num (dec 5 1)) .null .null .null .null
  exact ⟨H.1 (by decide), H.2.1 (by decide), H.2.2.1 (by decide), H.2.2.2.1 (by decide),
    H.2.2.2.2.1 (by decide), H.2.2.2.2.2.1 (by decide), H.2.2.2.2.2.2.1 (by decide),
    H.2.2.2.2.2.2.2 (by decide)⟩

/-- One notification-loop iteration with the escaping-exception outcome
collapsed (used to state that well-formed batches are processed to the
end). -/
def entryStepTotal (env : Env) (st : Store × List Eff) (e : Jv) : Store × List Eff :=
  match entryStep env st e with
  | .ok s => s
  | .error s => s

/-- A notification entry none of whose field reads can raise: a JSON
object whose `resource` (defaulted to `""`) is a string. -/
def wfEntry (e : Jv) : Bool :=
  match e with
  | .obj _ =>
    (match objGetD e "resource" (.str "") with
     | .str _ => true
     | _ => false)
  | _ => false

theorem entryStep_not_error (env : Env) (st : Store × List Eff) (e : Jv)
    (h : wfEntry e = true) (r : Store × List Eff) : entryStep env st e ≠ .error r := by
  cases e with
  | obj fs =>
    intro hfalse
    simp only [entryStep] at hfalse
    split at hfalse
    · simp at hfalse
    · split at hfalse
      · simp at hfalse
      · split at hfalse
        · split at hfalse
          · split at hfalse <;> simp at hfalse
          · simp at hfalse
        · rename_i hne
          simp only [wfEntry] at h
          cases hv : objGetD (.obj fs) "resource" (.str "") with
          | str s => exact hne s hv
          | null => simp at h
          | bool b => simp at h
          | num d => simp at h
          | arr l => simp at h
          | obj f => simp at h
  | null => simp [wfEntry] at h
  | bool b => simp [wfEntry] at h
  | num d => simp [wfEntry] at h
  | str s => simp [wfEntry] at h
  | arr l => simp [wfEntry] at h

theorem processNotifications_eq_foldl (env : Env) (es : List Jv) (st : Store × List Eff)
    (h : ∀ e ∈ es, wfEntry e = true) :
    processNotifications env es st = es.foldl (entryStepTotal env) st := by
  induction es generalizing st with
  | nil => rfl
  | cons e rest ih =>
    have he := h e (List.mem_cons_self e rest)
    rw [processNotifications, List.foldl]
    cases hstep : entryStep env st e with
    | ok s =>
      have ht : entryStepTotal env st e = s := by simp [entryStepTotal, hstep]
      rw [ht]
      exact ih s (fun x hx => h x (List.mem_cons_of_mem e hx))
    | error s => exact absurd hstep (entryStep_not_error env st e he s)

/-- C3 (amended): every POST delivery of a notification batch is answered
with status 202 and an empty body — malformed JSON, rejected entries and
failures inside the per-message procedure included (the per-message
procedure catches all its exceptions, so it never aborts the loop); and a
batch whose entries are all well-formed objects is processed to the very
end, as a plain fold over the entries.  What CAN abort the loop over
later entries is a malformed entry itself — a non-object entry, or an
object whose `resource` is not a string — whose field reads raise before
any per-message processing starts; the response is still 202. -/
theorem c3_always_202_and_wf_batches_complete (env : Env) (st : Store) (raw : String)
    (entries : List Jv) (stAcc : Store × List Eff) :
    (handle_webhook_notification env st raw).1 = { status := 202, body := "" } ∧
    ((∀ e ∈ entries, wfEntry e = true) →
      processNotifications env entries stAcc = entries.foldl (entryStepTotal env) stAcc) := by
  constructor
  · unfold handle_webhook_notification
    cases parseJson raw with
    | none => rfl
    | some b =>
      cases b with
      | obj fs => cases hv : (lookupLast fs "value").getD (.arr []) <;> simp [hv]
      | null => rfl
      | bool x => rfl
      | num x => rfl
      | str x => rfl
      | arr x => rfl
  · exact processNotifications_eq_foldl env entries stAcc

/-- The environment of the loop-abort counterexample: valid secret, all
services answering (classification falls back on a 500). -/
def c3c_email : EmailMsg :=
  { subject := "Fee query", body_preview := "Hi", body_content := "Hi",
    from_address := "x@y.z", from_name := "X",
    received_datetime := "2024-01-02T00:00:00Z", conversation_id := "c-3" }

def c3c_env : Env :=
  { secret := "sec", token := .ok (), fetchEmail := fun _ => .ok c3c_email,
    presidio := { enabled := false, analyzer := fun _ => .netError,
                  anonymizer := fun _ _ => .netError },
    gemini := .httpError 500, applyCategoryResult := fun _ _ => .ok true }

def c3c_good : Jv :=
  .obj [("clientState", .str "sec"), ("changeType", .str "created"),
        ("resource", .str "users/u/mailFolders/inbox/messages/mC3")]

/-- C3 counterexample: in a batch whose first entry is the JSON number
`5` (not an object), the loop raises at that entry and the later,
perfectly valid entry is never processed (no store change, no external
call) — whereas the same valid entry alone is processed; so a failure
inside an entry DOES abort the loop over later entries, contradicting the
claim (the response is still 202, which the amended theorem confirms). -/
theorem c3_malformed_entry_aborts_loop :
    processNotifications c3c_env [.num (dec 5 0), c3c_good] (Store.empty, []) =
      (Store.empty, []) ∧
    (processNotifications c3c_env [c3c_good] (Store.empty, [])).2 ≠ [] := by
  decide

theorem c3_always_202_and_wf_batches_complete_witness :
    (handle_webhook_notification c3c_env Store.empty "\x7b\"value\": 3\x7d").1 =
      { status := 202, body := "" } ∧
    processNotifications c3c_env [c3c_good] (Store.empty, []) =
      [c3c_good].foldl (entryStepTotal c3c_env) (Store.empty, []) :=
  ⟨(c3_always_202_and_wf_batches_complete c3c_env Store.empty "\x7b\"value\": 3\x7d" [] (Store.empty, [])).1,
   (c3_always_202_and_wf_batches_complete c3c_env Store.empty "" [c3c_good] (Store.empty, [])).2
     (by decide)⟩

/-- A fully healthy environment: token and message fetch succeed, the
analyzer finds no PII, Gemini returns a valid tagged reply with usage
metadata, and tagging succeeds. -/
def c1_email : EmailMsg :=
  { subject := "Hi", body_preview := "Hello", body_content := "<p>Hello</p>",
    from_address := "a@b.c", from_name := "A",
    received_datetime := "2024-01-01T00:00:00Z", conversation_id := "conv1" }

def c1_env : Env :=
  { secret := "s", token := .ok (), fetchEmail := fun _ => .ok c1_email,
    presidio := { enabled := true, analyzer := fun _ => .ok [],
                  anonymizer := fun _ _ => .ok none },
    gemini := .ok (.obj
      [("usageMetadata", .obj
         [("promptTokenCount", .num (dec 10 0)), ("candidatesTokenCount", .num (dec 5 0)),
          ("totalTokenCount", .num (dec 15 0))]),
       ("candidates", .arr [.obj [("content", .obj [("parts", .arr [.obj
         [("text", .str "\x7b\"classification\": \"registration\", \"confidence\": 0.9, \"reason\": \"ok\"\x7d")]])])]])]),
    applyCategoryResult := fun _ _ => .ok true }

/-- C1: running the per-message procedure twice for the fresh message id
`"m1"`, with every external service healthy, leaves ZERO persisted rows
for `"m1"` — not the claimed exactly one — because the final `save_email`
call passes the keyword `body_text`, which `save_email` does not accept,
so the insert raises `TypeError` before writing; and the second
invocation is consequently NOT reduced to the idempotency check: it
repeats the token fetch, the message fetch, the redaction, the
classification call and the tagging. -/
theorem c1_second_run_repeats_side_effects :
    rows_for (process_email c1_env (process_email c1_env Store.empty "m1").1 "m1").1.emails
        "m1" = 0 ∧
    (process_email c1_env (process_email c1_env Store.empty "m1").1 "m1").2 ≠
      [Eff.existsCheck "m1"] ∧
    Eff.tokenFetch ∈
      (process_email c1_env (process_email c1_env Store.empty "m1").1 "m1").2 ∧
    Eff.fetchMessage "m1" ∈
      (process_email c1_env (process_email c1_env Store.empty "m1").1 "m1").2 ∧
    Eff.geminiCall "Hi" "<p>Hello</p>" ∈
      (process_email c1_env (process_email c1_env Store.empty "m1").1 "m1").2 := by
  decide

def c4_email : EmailMsg :=
  { subject := "Invoice please", body_preview := "Need an invoice",
    body_content := "Need an invoice", from_address := "s@t.u", from_name := "S",
    received_datetime := "2024-02-02T00:00:00Z", conversation_id := "conv4" }

def c4_env : Env :=
  { secret := "s", token := .ok (), fetchEmail := fun _ => .ok c4_email,
    presidio := { enabled := true, analyzer := fun _ => .ok [],
                  anonymizer := fun _ _ => .ok none },
    gemini := .ok (.obj
      [("usageMetadata", .obj
         [("promptTokenCount", .num (dec 20 0)), ("candidatesTokenCount", .num (dec 7 0)),
          ("totalTokenCount", .num (dec 27 0))]),
       ("candidates", .arr [.obj [("content", .obj [("parts", .arr [.obj
         [("text", .str "\x7b\"classification\": \"finance-fees\", \"confidence\": 0.7, \"reason\": \"invoice\"\x7d")]])])]])]),
    applyCategoryResult := fun _ _ => .ok true }

/-- C4: the per-message procedure does reach its final step (the category
tagging just before the save happens), but the `save_email` call made
there passes the keyword argument `body_text`, which is not among
`save_email`'s parameters — the call raises `TypeError`, the enclosing
`except` swallows it, and neither the ProcessedEmail row nor the
LLMUsageRecord (whose insert sits after the row insert) is persisted. -/
theorem c4_save_rejects_body_text_kwarg :
    "body_text" ∈ entry_save_kwargs ∧
    "body_text" ∉ save_email_params ∧
    save_call_accepted = false ∧
    (process_email c4_env Store.empty "m4").1 = Store.empty ∧
    Eff.applyCategory "m4" "Finance Fees" ∈ (process_email c4_env Store.empty "m4").2 ∧
    Eff.dbInsert "m4" ∉ (process_email c4_env Store.empty "m4").2 ∧
    Eff.dbInsertUsage 1 ∉ (process_email c4_env Store.empty "m4").2 := by
  decide
